import Mathlib

unseal Rat.add Rat.sub Rat.mul Rat.inv Rat.ofScientific

/-
Verification development for the `tools/psi_monitor` pipeline of the
platform.packages.services.Car repository.

The Python sources embedded here are:
  - parse_psi_events.py : dump parsing (relative timestamps, annotation
    splitting) and the logcat event parser with its dedup-key counter;
  - generate_kpis.py    : the PsiKpi milestone state machine, validation
    and KPI row emission;
  - generate_kpi_stats.py : quantile-based outlier detection.

Numeric values that the Python code holds as ints/floats are modelled as
Nat / Int / ℚ; the arithmetic in all verified scenarios is exact, so no
floating-point rounding is relevant.  Regular expressions are embedded as
executable character-list matchers that follow the regex text.
-/

/-- Tests whether the first character list is a leading segment of the
second (used to embed anchored regex literals). -/
def listStartsWith : List Char → List Char → Bool
  | [], _ => true
  | _ :: _, [] => false
  | p :: ps, c :: cs => if p = c then listStartsWith ps cs else false

/-- Python `'" "' in s` from parse_psi_events.py line 186: does the
character list contain the quote-space-quote delimiter? -/
def containsDelim : List Char → Bool
  | [] => false
  | c :: cs => (c = '"' && listStartsWith [' ', '"'] cs) || containsDelim cs

/-- Python `s.replace('" "', ",")` from parse_psi_events.py line 187:
replace every (leftmost, non-overlapping) quote-space-quote occurrence by
a comma. -/
def replaceDelim : List Char → List Char
  | '"' :: ' ' :: '"' :: rest => ',' :: replaceDelim rest
  | c :: cs => c :: replaceDelim cs
  | [] => []

/-- Python `s.split(",")` from parse_psi_events.py line 188: split on every
comma; the empty string splits to one empty field. -/
def splitComma : List Char → List (List Char)
  | [] => [[]]
  | c :: cs =>
    if c = ',' then [] :: splitComma cs
    else
      match splitComma cs with
      | [] => [[c]]
      | g :: gs => (c :: g) :: gs

/-- The annotation-splitting rule of parse_psi_dump (parse_psi_events.py
lines 186-190), applied to a non-empty captured segment: if the segment
contains the quote-space-quote delimiter, replace it by commas and split
on commas, else the whole segment is a single annotation. -/
def parseAnnotSegL (s : List Char) : List (List Char) :=
  if containsDelim s then splitComma (replaceDelim s) else [s]

/-- Splitting of the optional captured annotation segment, including the
truthiness checks of parse_psi_events.py lines 184 and 191-192: a missing
or empty segment becomes the empty list (`on_psi_field_missing`). -/
def splitEventDescs : Option String → List String
  | none => []
  | some s => if s = "" then [] else (parseAnnotSegL s.data).map String.mk

/-- The encoding direction for the round-trip property: join the
annotation strings with the quote-space-quote delimiter (the format the
origin tool writes into the trailing quoted segment). -/
def intercalateDelim : List (List Char) → List Char
  | [] => []
  | [s] => s
  | s :: r :: rest => s ++ '"' :: ' ' :: '"' :: intercalateDelim (r :: rest)

/-- String-level encoder for a list of annotations. -/
def encodeEventDescs (l : List String) : String :=
  String.mk (intercalateDelim (l.map String.data))

/-- One dump line after the positional grammar match of PSI_LINE_RE
(parse_psi_events.py lines 64-71): the claims about the dump parser
depend only on the captured `uptime_millis` field (regex `\d+`, hence an
arbitrary natural number) and the optional trailing annotation segment;
the pressure-metric captures do not influence relative times or
annotation lists and are omitted from the embedding. -/
structure RawPsiLine where
  uptimeMillis : Nat
  eventDescSeg : Option String
deriving Repr, DecidableEq

/-- One row of the output pressure table, restricted to the derived
fields the claims are about. -/
structure ParsedPsiRow where
  monitorStartRelativeMillis : Int
  eventDescriptions : List String
deriving Repr, DecidableEq

/-- The loop of parse_psi_dump (parse_psi_events.py lines 174-193).  The
Python guard is `if not monitor_start_uptime_millis:`, which is satisfied
both when the variable is still None and when the previously stored
uptime is 0; the three match arms reproduce exactly that truthiness. -/
def parsePsiDumpAux : Option Nat → List RawPsiLine → List ParsedPsiRow
  | _, [] => []
  | none, line :: rest =>
    ⟨0, splitEventDescs line.eventDescSeg⟩ :: parsePsiDumpAux (some line.uptimeMillis) rest
  | some 0, line :: rest =>
    ⟨0, splitEventDescs line.eventDescSeg⟩ :: parsePsiDumpAux (some line.uptimeMillis) rest
  | some (u + 1), line :: rest =>
    ⟨(line.uptimeMillis : Int) - ((u + 1 : Nat) : Int),
      splitEventDescs line.eventDescSeg⟩ :: parsePsiDumpAux (some (u + 1)) rest

/-- parse_psi_dump on a dump whose lines all matched the grammar. -/
def parsePsiDump (lines : List RawPsiLine) : List ParsedPsiRow :=
  parsePsiDumpAux none lines

/-- Python `\s` on the characters that matter here (ASCII whitespace as
matched by the `re` module). -/
def isPySpace (c : Char) : Bool :=
  c = ' ' || c = '\t' || c = '\n' || c = '\x0d' || c = '\x0b' || c = '\x0c'

/-- Decimal value of a digit run, as Python `int(...)` reads a `\d+`
capture. -/
def digitsToNat (ds : List Char) : Nat :=
  ds.foldl (fun n c => 10 * n + (c.toNat - 48)) 0

/-- Common shape of PSI_EXCEEDED_THRESHOLD_RE and
PSI_DROPPED_BELOW_THRESHOLD_RE (generate_kpis.py lines 10-13):
`^<pre>(?P<psi_value>\d+)%\s+(?P<psi_type>.*)$`.  Returns the captured
(psi_value, psi_type) pair.  The matcher works on whole single-line
annotations, so the `$` anchor is end of input. -/
def matchThresholdL (pre : List Char) (s : List Char) : Option (String × String) :=
  if listStartsWith pre s then
    let rest := s.drop pre.length
    let digits := rest.takeWhile Char.isDigit
    if digits.isEmpty then none
    else
      match rest.drop digits.length with
      | '%' :: rest2 =>
        let ws := rest2.takeWhile isPySpace
        if ws.isEmpty then none
        else some (String.mk digits, String.mk (rest2.drop ws.length))
      | _ => none
  else none

/-- The literal part of PSI_EXCEEDED_THRESHOLD_RE. -/
def exceededPre : List Char := "PSI exceeded threshold: ".data

/-- The literal part of PSI_DROPPED_BELOW_THRESHOLD_RE. -/
def droppedPre : List Char := "PSI dropped below threshold: ".data

/-- The literal part of PSI_REACHED_BASELINE_RE. -/
def baselinePre : List Char := "PSI reached baseline across latest".data

/-- PSI_EXCEEDED_THRESHOLD_RE.match on an annotation string. -/
def matchExceeded (s : String) : Option (String × String) :=
  matchThresholdL exceededPre s.data

/-- PSI_DROPPED_BELOW_THRESHOLD_RE.match on an annotation string. -/
def matchDropped (s : String) : Option (String × String) :=
  matchThresholdL droppedPre s.data

/-- PSI_REACHED_BASELINE_RE (generate_kpis.py lines 14-15):
`^PSI reached baseline across latest\s+(?P<latest_psi_entries>\d+)\s+entries$`,
returning the captured entry count as read by `int(...)`. -/
def matchBaseline (s : String) : Option Nat :=
  if listStartsWith baselinePre s.data then
    let rest := s.data.drop baselinePre.length
    let ws1 := rest.takeWhile isPySpace
    if ws1.isEmpty then none
    else
      let rest2 := rest.drop ws1.length
      let digits := rest2.takeWhile Char.isDigit
      if digits.isEmpty then none
      else
        let rest3 := rest2.drop digits.length
        let ws2 := rest3.takeWhile isPySpace
        if ws2.isEmpty then none
        else if rest3.drop ws2.length = "entries".data then some (digitsToNat digits)
        else none
  else none

/-- CUJ_COMPLETED_EVENT (generate_kpis.py line 9). -/
def cujCompletedEvent : String := "CUJ completed"

/-- PSI_MONITOR_TAG (generate_kpis.py line 16). -/
def psiMonitorTag : String := "psi_monitor"

/-- PSI_EVENT_TYPE (generate_kpis.py line 17). -/
def psiEventType : String := "psi_event"

/-- LOGCAT_EVENT_TYPE (generate_kpis.py line 18). -/
def logcatEventType : String := "logcat_event"

/-- LOGCAT_EVENT_UNIT (generate_kpis.py line 19). -/
def logcatEventUnit : String := "Duration millis"

/-- One row of the pressure CSV as consumed by generate_kpis.py: the
monitor-relative timestamp, the monitored PSI column (PSI_TO_MONITOR =
`cpu_some_avg10`, modelled directly as the `psiValue` field) and the
parsed annotation list. -/
structure PsiRow where
  monitorStartRelativeMillis : ℚ
  psiValue : ℚ
  eventDescriptions : List String
deriving Repr, DecidableEq, Inhabited

/-- The mutable attributes of class PsiKpi (generate_kpis.py lines
23-38), with `None` rendered as `Option.none`.
`reachedBaselineTotalDurationMillis` is the attribute that Python only
creates when a baseline annotation is matched. -/
structure PsiKpiState where
  cujCompletedMillis : Option ℚ
  exceededThresholdMillis : Option ℚ
  exceededThresholdValue : Option String
  exceededThresholdType : Option String
  droppedBelowThresholdMillis : Option ℚ
  droppedBelowThresholdValue : Option String
  droppedBelowThresholdType : Option String
  reachedBaselineMillis : Option ℚ
  reachedBaselineLatestPsiEntries : Option Nat
  reachedBaselineTotalDurationMillis : Option ℚ
  maxPsiValue : ℚ
  maxPsiValueAfterDroppedBelowThreshold : ℚ
  totalDurationAbove80pThresholdMillis : ℚ
  totalDurationAbove50pThresholdMillis : ℚ
  totalDurationAbove30pThresholdMillis : ℚ
deriving Repr, DecidableEq, Inhabited

/-- The state PsiKpi.__init__ builds. -/
def initPsiKpiState : PsiKpiState :=
  ⟨none, none, none, none, none, none, none, none, none, none, 0, 0, 0, 0, 0⟩

/-- The `PSI reached baseline` arm of the annotation loop
(generate_kpis.py lines 133-145).  Python sets the milestone fields, then
raises when the captured entry count exceeds the row index, else derives
the calculation-window duration from the row `latest_psi_entries`
positions earlier (a `.loc` label lookup; labels coincide with
positions).  The `.getD` default is unreachable because the index bound
was just checked.  Python stores the milestone fields before raising; the
raise discards the extractor, so folding the assignments into the success
branch is observationally identical. -/
def procAnnotBaseline (psiDf : List PsiRow) (index : Nat) (millis : ℚ)
    (st : PsiKpiState) (d : String) : Except String PsiKpiState :=
  if st.reachedBaselineMillis = none then
    match matchBaseline d with
    | none => .ok st
    | some n =>
      if n > index then
        .error "Previous N PSI entries used in baseline calculation is greater than index"
      else
        .ok { st with reachedBaselineMillis := some millis,
                      reachedBaselineLatestPsiEntries := some n,
                      reachedBaselineTotalDurationMillis := some (millis - (psiDf.getD (index - n) default).monitorStartRelativeMillis) }
  else .ok st

/-- The `PSI dropped below threshold` arm (generate_kpis.py lines
128-131 and 52-61); on no match, control falls through to the baseline
arm with the state unchanged. -/
def procAnnotDropped (psiDf : List PsiRow) (index : Nat) (millis : ℚ)
    (st : PsiKpiState) (d : String) : Except String PsiKpiState :=
  if st.droppedBelowThresholdMillis = none then
    match matchDropped d with
    | some (v, t) =>
      .ok { st with droppedBelowThresholdMillis := some millis,
                    droppedBelowThresholdValue := some v,
                    droppedBelowThresholdType := some t }
    | none => procAnnotBaseline psiDf index millis st d
  else procAnnotBaseline psiDf index millis st d

/-- The `PSI exceeded threshold` arm (generate_kpis.py lines 124-126 and
41-49). -/
def procAnnotExceeded (psiDf : List PsiRow) (index : Nat) (millis : ℚ)
    (st : PsiKpiState) (d : String) : Except String PsiKpiState :=
  if st.exceededThresholdMillis = none then
    match matchExceeded d with
    | some (v, t) =>
      .ok { st with exceededThresholdMillis := some millis,
                    exceededThresholdValue := some v,
                    exceededThresholdType := some t }
    | none => procAnnotDropped psiDf index millis st d
  else procAnnotDropped psiDf index millis st d

/-- The `if self._dropped_below_threshold_millis:` truthiness guard of
generate_kpis.py lines 116-118: the post-drop running maximum is updated
only when the stored timestamp is present and non-zero. -/
def dropMaxUpdate (st : PsiKpiState) (psi : ℚ) : PsiKpiState :=
  match st.droppedBelowThresholdMillis with
  | some v =>
    if v ≠ 0 then
      { st with maxPsiValueAfterDroppedBelowThreshold := max st.maxPsiValueAfterDroppedBelowThreshold psi }
    else st
  | none => st

/-- One iteration of the `for event_description in event_descriptions`
loop (generate_kpis.py lines 115-145): the post-drop maximum update of
line 116, then the if/continue chain over the four milestone patterns. -/
def procAnnot (psiDf : List PsiRow) (index : Nat) (millis psi : ℚ)
    (st : PsiKpiState) (d : String) : Except String PsiKpiState :=
  if (dropMaxUpdate st psi).cujCompletedMillis = none ∧ d = cujCompletedEvent then
    .ok { dropMaxUpdate st psi with cujCompletedMillis := some millis }
  else procAnnotExceeded psiDf index millis (dropMaxUpdate st psi) d

/-- The annotation loop over one row's annotation list. -/
def procAnnots (psiDf : List PsiRow) (index : Nat) (millis psi : ℚ) :
    PsiKpiState → List String → Except String PsiKpiState
  | st, [] => .ok st
  | st, d :: ds =>
    match procAnnot psiDf index millis psi st d with
    | .error e => .error e
    | .ok st2 => procAnnots psiDf index millis psi st2 ds

/-- The three severity-band accumulations of generate_kpis.py lines
106-113, credited when either endpoint of the adjacent row pair meets
the band. -/
def bandUpdate (st : PsiKpiState) (psi prevPsi cur : ℚ) : PsiKpiState :=
  let stA :=
    if psi ≥ 80 ∨ prevPsi ≥ 80 then
      { st with totalDurationAbove80pThresholdMillis := st.totalDurationAbove80pThresholdMillis + cur }
    else st
  let stB :=
    if psi ≥ 50 ∨ prevPsi ≥ 50 then
      { stA with totalDurationAbove50pThresholdMillis := stA.totalDurationAbove50pThresholdMillis + cur }
    else stA
  if psi ≥ 30 ∨ prevPsi ≥ 30 then
    { stB with totalDurationAbove30pThresholdMillis := stB.totalDurationAbove30pThresholdMillis + cur }
  else stB

/-- The `psi_df.iterrows()` loop of process_psi_df (generate_kpis.py
lines 97-148): `index` is the positional row index, `prevPsi` and
`prevMillis` are the loop-carried previous values (both initialised to
0.0). -/
def processRows (psiDf : List PsiRow) :
    Nat → ℚ → ℚ → PsiKpiState → List PsiRow → Except String PsiKpiState
  | _, _, _, st, [] => .ok st
  | index, prevPsi, prevMillis, st, row :: rest =>
    let millis := row.monitorStartRelativeMillis
    let psi := row.psiValue
    let st1 := bandUpdate st psi prevPsi (millis - prevMillis)
    match procAnnots psiDf index millis psi st1 row.eventDescriptions with
    | .error e => .error e
    | .ok st2 => processRows psiDf (index + 1) psi millis st2 rest

/-- `psi_df[self._psi_to_monitor].max()` over a non-empty column. -/
def maxPsiOf : List PsiRow → ℚ
  | [] => 0
  | r :: rs => rs.foldl (fun m x => max m x.psiValue) r.psiValue

/-- PsiKpi.process_psi_df (generate_kpis.py lines 93-148): an empty table
returns with the state untouched; otherwise the whole-run maximum is set
and the row loop runs, possibly raising (ValueError becomes
`Except.error`). -/
def processPsiDf (psiDf : List PsiRow) : Except String PsiKpiState :=
  if psiDf.isEmpty then .ok initPsiKpiState
  else processRows psiDf 0 0 0 { initPsiKpiState with maxPsiValue := maxPsiOf psiDf } psiDf

/-- Python `'{}'.format(x)` on an attribute that may still be None. -/
def strOfOpt : Option String → String
  | some s => s
  | none => "None"

/-- PsiKpi._check_valid (generate_kpis.py lines 64-91), with each raised
ValueError rendered as `Except.error`.  The final check reads the
`_reached_baseline_total_duration_millis` attribute, which Python only
creates together with `_reached_baseline_millis`; an absent attribute
would itself raise (AttributeError), rendered here as an error as
well. -/
def checkValid (st : PsiKpiState) : Except String Unit :=
  match st.cujCompletedMillis with
  | none => .error "CUJ completed event not found"
  | some cuj =>
  match st.exceededThresholdMillis with
  | none => .error "PSI exceeded threshold event not found"
  | some exc =>
  match st.droppedBelowThresholdMillis with
  | none => .error "PSI dropped below threshold event not found"
  | some drp =>
  match st.reachedBaselineMillis with
  | none => .error "PSI reached baseline event not found"
  | some rb =>
  if st.droppedBelowThresholdType ≠ st.exceededThresholdType then
    .error "PSI threshold type mismatch"
  else if st.droppedBelowThresholdValue ≠ st.exceededThresholdValue then
    .error "PSI threshold value mismatch"
  else if exc ≥ drp then
    .error "PSI exceeded threshold millis >= dropped below threshold millis"
  else if cuj > exc then
    .error "CUJ completed millis > exceeded threshold millis"
  else if cuj > rb then
    .error "CUJ completed millis > reached baseline millis"
  else
    match st.reachedBaselineTotalDurationMillis with
    | none => .error "reached baseline total duration attribute missing"
    | some dur =>
      if dur ≤ 0 then .error "Time taken to reach PSI baseline <= 0"
      else .ok ()

/-- One KPI table row: (Event, Type, Tag, Value, Unit), the COLUMNS tuple
of generate_kpis.py line 7. -/
structure KpiRow where
  event : String
  type : String
  tag : String
  value : ℚ
  unit : String
deriving Repr, DecidableEq, Inhabited

/-- The eleven fixed PSI KPI rows appended by PsiKpi.populate_kpi_df
(generate_kpis.py lines 153-188), in emission order.  Millisecond values
are divided by 1000 exactly as the Python float division does on these
integral inputs.  Option fields are present whenever `_check_valid`
passed; `.getD 0` stands for the direct attribute read. -/
def psiKpiRows (st : PsiKpiState) : List KpiRow :=
  let psiType := strOfOpt st.droppedBelowThresholdType
  let psiThreshold := strOfOpt st.droppedBelowThresholdValue
  let cuj := st.cujCompletedMillis.getD 0
  let exc := st.exceededThresholdMillis.getD 0
  let drp := st.droppedBelowThresholdMillis.getD 0
  let rb := st.reachedBaselineMillis.getD 0
  let dur := st.reachedBaselineTotalDurationMillis.getD 0
  [⟨cujCompletedEvent, psiEventType, psiMonitorTag, cuj / 1000, "Seconds since monitor start"⟩,
   ⟨"Time taken to reach \x27" ++ psiType ++ "\x27 PSI baseline (including baseline calculation duration)",
     psiEventType, psiMonitorTag, (rb - cuj) / 1000, "Duration seconds"⟩,
   ⟨"Total number of \x27" ++ psiType ++ "\x27 PSI entries used in baseline calculation",
     psiEventType, psiMonitorTag, ((st.reachedBaselineLatestPsiEntries.getD 0 : Nat) : ℚ), "Number of entries"⟩,
   ⟨"Baseline calculation duration", psiMonitorTag, psiEventType, dur / 1000, "Duration seconds"⟩,
   ⟨"Max \x27" ++ psiType ++ "\x27 PSI value", psiEventType, psiMonitorTag, st.maxPsiValue, "Percent"⟩,
   ⟨"Time spent above the \x27" ++ psiType ++ "\x27 PSI threshold " ++ psiThreshold ++ "%",
     psiEventType, psiMonitorTag, (drp - exc) / 1000, "Duration seconds"⟩,
   ⟨"Time taken to drop below the \x27" ++ psiType ++ "\x27 PSI threshold",
     psiEventType, psiMonitorTag, (drp - cuj) / 1000, "Duration seconds"⟩,
   ⟨"Max \x27" ++ psiType ++ "\x27 PSI value after dropped below threshold",
     psiEventType, psiMonitorTag, st.maxPsiValueAfterDroppedBelowThreshold, "Percent"⟩,
   ⟨"Total time spent above the \x27" ++ psiType ++ "\x27 PSI threshold 80%",
     psiEventType, psiMonitorTag, st.totalDurationAbove80pThresholdMillis / 1000, "Duration seconds"⟩,
   ⟨"Total time spent above the \x27" ++ psiType ++ "\x27 PSI threshold 50%",
     psiEventType, psiMonitorTag, st.totalDurationAbove50pThresholdMillis / 1000, "Duration seconds"⟩,
   ⟨"Total time spent above the \x27" ++ psiType ++ "\x27 PSI threshold 30%",
     psiEventType, psiMonitorTag, st.totalDurationAbove30pThresholdMillis / 1000, "Duration seconds"⟩]

/-- PsiKpi.populate_kpi_df (generate_kpis.py lines 151-189): validate,
then append the fixed PSI rows to the (empty) KPI table. -/
def populateKpiDf (st : PsiKpiState) : Except String (List KpiRow) :=
  match checkValid st with
  | .error e => .error e
  | .ok () => .ok (psiKpiRows st)

/-- One row of the events CSV as consumed by process_events_df
(generate_kpis.py lines 192-202): a NaN/None cell is `none`. -/
structure EventsCsvRow where
  eventTag : String
  eventKey : Option String
  durationValue : Option ℚ
deriving Repr, DecidableEq

/-- process_events_df (generate_kpis.py lines 192-202): drop rows with a
missing key or duration, keep strictly positive durations, and append one
logcat KPI row per surviving event in input order. -/
def processEventsDf (eventsDf : List EventsCsvRow) (kpiDf : List KpiRow) : List KpiRow :=
  if eventsDf.isEmpty then kpiDf
  else
    kpiDf ++ eventsDf.filterMap fun r =>
      match r.eventKey, r.durationValue with
      | some k, some dv =>
        if dv > 0 then some ⟨k, logcatEventType, r.eventTag, dv, logcatEventUnit⟩ else none
      | _, _ => none

/-- get_kpi_df (generate_kpis.py lines 205-214): run the PSI state
machine, emit the PSI rows, then append logcat rows when an events table
was supplied.  Any raised ValueError propagates as `Except.error`. -/
def getKpiDf (psiDf : List PsiRow) (eventsDf : Option (List EventsCsvRow)) :
    Except String (List KpiRow) :=
  match processPsiDf psiDf with
  | .error e => .error e
  | .ok st =>
    match populateKpiDf st with
    | .error e => .error e
    | .ok rows =>
      match eventsDf with
      | none => .ok rows
      | some evs => .ok (processEventsDf evs rows)

/-- MIN_DURATION_MILLIS_DELTA_BEFORE_MONITOR_START
(parse_psi_events.py line 137). -/
def minDurationMillisDeltaBeforeMonitorStart : Int := -600000

/-- Python dict read `d[k]` / `k in d`, on the insertion-ordered
association list that models `_event_counts_dict`. -/
def dictGet : List (String × Nat) → String → Option Nat
  | [], _ => none
  | (k1, v) :: rest, k => if k1 = k then some v else dictGet rest k

/-- Python dict write `d[k] = n`: overwrite in place, or append a new
key. -/
def dictSet : List (String × Nat) → String → Nat → List (String × Nat)
  | [], k, n => [(k, n)]
  | (k1, v) :: rest, k, n =>
    if k1 = k then (k, n) :: rest else (k1, v) :: dictSet rest k n

/-- The arguments of one LogcatParser._get_list call (parse_psi_events.py
lines 204-205), with the Python defaults. -/
structure GetListArgs where
  epochMillis : Int
  eventTag : String
  eventDescription : String
  color : String
  eventKey : Option String := none
  durationMillis : Option Int := none
  isHighLatencyEvent : Bool := false
  shouldPlot : Bool := true
deriving Repr, DecidableEq

/-- One row of the events table, fields in the EVENTS_OUT_FIELDS order
(parse_psi_events.py lines 128-136 and 217-219). -/
structure LogEventRow where
  epochMillis : Int
  monitorStartRelativeMillis : Int
  eventTag : String
  eventDescription : String
  eventKey : Option String
  durationMillis : Option Int
  isHighLatencyEvent : Bool
  color : String
  shouldPlot : Bool
deriving Repr, DecidableEq

/-- LogcatParser._get_list (parse_psi_events.py lines 204-219).  The
state is the `_event_counts_dict` mapping.  `if event_key:` is Python
truthiness, so an empty-string key skips the counter block.  The counter
is updated BEFORE the time-window rejection of line 215, which returns
None (no row) but keeps the updated dictionary. -/
def getList (monitorStartEpochMillis : Int) (counts : List (String × Nat))
    (a : GetListArgs) : List (String × Nat) × Option LogEventRow :=
  let withKey :=
    match a.eventKey with
    | none => (counts, none)
    | some k =>
      if k = "" then (counts, some k)
      else
        match dictGet counts k with
        | some n => (dictSet counts k (n + 1), some (k ++ ": Occurrence " ++ toString (n + 1)))
        | none => (dictSet counts k 1, some k)
  let counts2 := withKey.1
  let key2 := withKey.2
  let rel : Int := a.epochMillis - monitorStartEpochMillis
  if rel < minDurationMillisDeltaBeforeMonitorStart then (counts2, none)
  else
    (counts2, some ⟨a.epochMillis, rel, a.eventTag, a.eventDescription, key2,
                    a.durationMillis, a.isHighLatencyEvent, a.color, a.shouldPlot⟩)

/-- Runs a sequence of _get_list calls within one parse invocation and
records, for every call that carried the dedup key `k`, the key text of
the produced event (discarded calls contribute nothing).  This is the
per-key projection of the events table that claims about the dedup
counter are about. -/
def keyTrace (monitorStartEpochMillis : Int) (k : String) :
    List (String × Nat) → List GetListArgs → List (Option String)
  | _, [] => []
  | counts, a :: rest =>
    if a.eventKey = some k then
      (match (getList monitorStartEpochMillis counts a).2 with
       | some row => [row.eventKey]
       | none => []) ++
        keyTrace monitorStartEpochMillis k (getList monitorStartEpochMillis counts a).1 rest
    else keyTrace monitorStartEpochMillis k (getList monitorStartEpochMillis counts a).1 rest

/-- The key text the Nth call (1-based) with a fresh dedup key produces:
unmodified on the first call, suffixed with the running counter from the
second call on. -/
def occKey (k : String) (n : Nat) : Option String :=
  if n = 1 then some k else some (k ++ ": Occurrence " ++ toString n)

/-- pandas Series.quantile with the default linear interpolation, on an
ascending-sorted list of values (generate_kpi_stats.py lines 45-46):
position h = q*(n-1), result x[⌊h⌋] + (h-⌊h⌋)*(x[⌊h⌋+1]-x[⌊h⌋]). -/
def quantileLinear (xs : List ℚ) (q : ℚ) : ℚ :=
  match xs with
  | [] => 0
  | x :: _ =>
    let n := xs.length
    let h := q * ((n : ℚ) - 1)
    let lo := (Rat.floor h).toNat
    let xlo := xs.getD lo x
    xlo + (h - (Rat.floor h : ℚ)) * (xs.getD (lo + 1) xlo - xlo)

/-- get_outliers (generate_kpi_stats.py lines 30-38) on one group's
(RunId, Value) rows: 1.5×IQR fences below Q1 / above Q3, reporting
low-outlier run ids, high-outlier run ids, and the raw outlier values. -/
def getOutliers (group : List (String × ℚ)) (q1 q3 : ℚ) :
    List String × List String × List ℚ :=
  let iqr := q3 - q1
  let lowerBound := q1 - 3/2 * iqr
  let upperBound := q3 + 3/2 * iqr
  ((group.filter fun r => decide (r.2 < lowerBound)).map Prod.fst,
   (group.filter fun r => decide (r.2 > upperBound)).map Prod.fst,
   (group.filter fun r => decide (r.2 < lowerBound ∨ r.2 > upperBound)).map Prod.snd)

/-- The outlier-relevant slice of one iteration of the groupby loop in
get_kpi_stats_df (generate_kpi_stats.py lines 43-47): q1 and q3 are the
0.25/0.75 quantiles of the group's Value series, then get_outliers runs
on the group.  (The remaining descriptive-statistic columns of the row
are not needed by any claim; the standard deviation is irrational in
general and outside ℚ.) -/
def kpiGroupOutliers (group : List (String × ℚ)) : List String × List String × List ℚ :=
  let sorted := (group.map Prod.snd).insertionSort (· ≤ ·)
  let q1 := quantileLinear sorted (1/4)
  let q3 := quantileLinear sorted (3/4)
  getOutliers group q1 q3

/-- First baseline-pattern match within one row's annotation list, in
scan order. -/
def firstBaselineAnnot : List String → Option Nat
  | [] => none
  | d :: ds =>
    match matchBaseline d with
    | some n => some n
    | none => firstBaselineAnnot ds

/-- First baseline-pattern match in the whole table, scanning rows from
the given positional index: returns the row index holding the annotation
and the captured entry count. -/
def firstBaselineMatchAux : Nat → List PsiRow → Option (Nat × Nat)
  | _, [] => none
  | i, row :: rest =>
    match firstBaselineAnnot row.eventDescriptions with
    | some n => some (i, n)
    | none => firstBaselineMatchAux (i + 1) rest

/-- Row index and captured entry count of the first-matched
`PSI reached baseline across latest N entries` annotation of a table. -/
def firstBaselineMatch (psiDf : List PsiRow) : Option (Nat × Nat) :=
  firstBaselineMatchAux 0 psiDf

/-- Modelled from the claim's words (not from the code): the running
maximum of the monitored metric over all rows of the table at or after
row index `i`, started from the accumulator value 0.0 the code
initialises. -/
def specMaxAtOrAfter (psiDf : List PsiRow) (i : Nat) : ℚ :=
  ((psiDf.drop i).map PsiRow.psiValue).foldl max 0

/-- The canonical pressure table of the spec's KPI scenario: exactly one
CUJ-completed annotation at relative time 1000, the 80% cpu:some
exceeded annotation at 1500, the matching dropped-below annotation at
3500, and a baseline annotation with N=2 at 4000 on row index 6, whose
row two positions earlier (index 4) has relative time 3800. -/
def c1Rows : List PsiRow :=
  [⟨0, 0, []⟩,
   ⟨1000, 0, ["CUJ completed"]⟩,
   ⟨1500, 0, ["PSI exceeded threshold: 80% cpu:some"]⟩,
   ⟨3500, 0, ["PSI dropped below threshold: 80% cpu:some"]⟩,
   ⟨3800, 0, []⟩,
   ⟨3900, 0, []⟩,
   ⟨4000, 0, ["PSI reached baseline across latest 2 entries"]⟩]

/-- The KPI table the embedding computes for `c1Rows`. -/
def c1Kpis : List KpiRow :=
  [⟨"CUJ completed", "psi_event", "psi_monitor", 1, "Seconds since monitor start"⟩,
   ⟨"Time taken to reach \x27cpu:some\x27 PSI baseline (including baseline calculation duration)",
     "psi_event", "psi_monitor", 3, "Duration seconds"⟩,
   ⟨"Total number of \x27cpu:some\x27 PSI entries used in baseline calculation",
     "psi_event", "psi_monitor", 2, "Number of entries"⟩,
   ⟨"Baseline calculation duration", "psi_monitor", "psi_event", 1/5, "Duration seconds"⟩,
   ⟨"Max \x27cpu:some\x27 PSI value", "psi_event", "psi_monitor", 0, "Percent"⟩,
   ⟨"Time spent above the \x27cpu:some\x27 PSI threshold 80%",
     "psi_event", "psi_monitor", 2, "Duration seconds"⟩,
   ⟨"Time taken to drop below the \x27cpu:some\x27 PSI threshold",
     "psi_event", "psi_monitor", 5/2, "Duration seconds"⟩,
   ⟨"Max \x27cpu:some\x27 PSI value after dropped below threshold",
     "psi_event", "psi_monitor", 0, "Percent"⟩,
   ⟨"Total time spent above the \x27cpu:some\x27 PSI threshold 80%",
     "psi_event", "psi_monitor", 0, "Duration seconds"⟩,
   ⟨"Total time spent above the \x27cpu:some\x27 PSI threshold 50%",
     "psi_event", "psi_monitor", 0, "Duration seconds"⟩,
   ⟨"Total time spent above the \x27cpu:some\x27 PSI threshold 30%",
     "psi_event", "psi_monitor", 0, "Duration seconds"⟩]

/-- A validated pressure table in which the row holding the
dropped-below annotation is index 3, and a later annotation-free row
(index 4) carries the run's highest monitored value 99. -/
def c3Rows : List PsiRow :=
  [⟨0, 10, []⟩,
   ⟨1000, 10, ["CUJ completed"]⟩,
   ⟨1500, 10, ["PSI exceeded threshold: 80% cpu:some"]⟩,
   ⟨3500, 5, ["PSI dropped below threshold: 80% cpu:some"]⟩,
   ⟨3800, 99, []⟩,
   ⟨3900, 1, []⟩,
   ⟨4000, 1, ["PSI reached baseline across latest 2 entries"]⟩]

/-- The KPI table the embedding computes for `c3Rows`. -/
def c3Kpis : List KpiRow :=
  [⟨"CUJ completed", "psi_event", "psi_monitor", 1, "Seconds since monitor start"⟩,
   ⟨"Time taken to reach \x27cpu:some\x27 PSI baseline (including baseline calculation duration)",
     "psi_event", "psi_monitor", 3, "Duration seconds"⟩,
   ⟨"Total number of \x27cpu:some\x27 PSI entries used in baseline calculation",
     "psi_event", "psi_monitor", 2, "Number of entries"⟩,
   ⟨"Baseline calculation duration", "psi_monitor", "psi_event", 1/5, "Duration seconds"⟩,
   ⟨"Max \x27cpu:some\x27 PSI value", "psi_event", "psi_monitor", 99, "Percent"⟩,
   ⟨"Time spent above the \x27cpu:some\x27 PSI threshold 80%",
     "psi_event", "psi_monitor", 2, "Duration seconds"⟩,
   ⟨"Time taken to drop below the \x27cpu:some\x27 PSI threshold",
     "psi_event", "psi_monitor", 5/2, "Duration seconds"⟩,
   ⟨"Max \x27cpu:some\x27 PSI value after dropped below threshold",
     "psi_event", "psi_monitor", 1, "Percent"⟩,
   ⟨"Total time spent above the \x27cpu:some\x27 PSI threshold 80%",
     "psi_event", "psi_monitor", 2/5, "Duration seconds"⟩,
   ⟨"Total time spent above the \x27cpu:some\x27 PSI threshold 50%",
     "psi_event", "psi_monitor", 2/5, "Duration seconds"⟩,
   ⟨"Total time spent above the \x27cpu:some\x27 PSI threshold 30%",
     "psi_event", "psi_monitor", 2/5, "Duration seconds"⟩]

/-- A one-row table whose two annotations record an exceeded threshold of
80% and a dropped-below threshold of 70% (mismatched captured values). -/
def mismatchRows : List PsiRow :=
  [⟨0, 0, ["PSI exceeded threshold: 80% cpu:some",
           "PSI dropped below threshold: 70% cpu:some"]⟩]

/-- The PsiKpi state after processing `mismatchRows`. -/
def mismatchState : PsiKpiState :=
  ⟨none, some 0, some "80", some "cpu:some", some 0, some "70", some "cpu:some",
   none, none, none, 0, 0, 0, 0, 0⟩

/-- A one-row table whose first-matched baseline annotation references a
window of 2 entries at row index 0. -/
def badBaselineRows : List PsiRow :=
  [⟨0, 0, ["PSI reached baseline across latest 2 entries"]⟩]

/-- The number of _get_list calls in a parse invocation that carry the
dedup key `k`. -/
def keyCallCount (args : List GetListArgs) (k : String) : Nat :=
  (args.filter fun a => decide (a.eventKey = some k)).length

/-- Two retained Displayed-line calls with duration 1200 ms and the same
dedup key, as the Displayed branch of _parse_line issues them. -/
def c8Args : List GetListArgs :=
  [⟨0, "ActivityTaskManager", "Displayed foo.bar for user 0 took 1200ms", "orangered",
     some "Displayed foo.bar for user 0", some 1200, true, true⟩,
   ⟨100, "ActivityTaskManager", "Displayed foo.bar for user 0 took 1200ms", "orangered",
     some "Displayed foo.bar for user 0", some 1200, true, true⟩]

/-- The PsiKpi state after processing `c1Rows`: a state that passes
validation. -/
def c1State : PsiKpiState :=
  ⟨some 1000, some 1500, some "80", some "cpu:some", some 3500, some "80", some "cpu:some",
   some 4000, some 2, some 200, 0, 0, 0, 0, 0⟩

/-- Claim C1: on the canonical table realising the spec scenario (one
CUJ-completed annotation at relative time 1000 ms, the 80% cpu:some
exceeded annotation at 1500 ms, the matching dropped-below annotation at
3500 ms, and a baseline annotation with N=2 at 4000 ms whose row two
positions earlier has relative time 3800 ms), KPI extraction succeeds and
the output holds a CUJ-completed row of value 1.0 seconds, a
baseline-calculation-duration row of value 0.2, and a
time-above-threshold row of value 2.0. -/
theorem claim_c1_kpi_scenario :
    getKpiDf c1Rows none = .ok c1Kpis
    ∧ c1Kpis.get? 0 = some ⟨"CUJ completed", "psi_event", "psi_monitor", 1,
        "Seconds since monitor start"⟩
    ∧ c1Kpis.get? 3 = some ⟨"Baseline calculation duration", "psi_monitor", "psi_event", 1/5,
        "Duration seconds"⟩
    ∧ c1Kpis.get? 5 = some ⟨"Time spent above the \x27cpu:some\x27 PSI threshold 80%",
        "psi_event", "psi_monitor", 2, "Duration seconds"⟩ :=
  ⟨rfl, rfl, rfl, rfl⟩

/-- Claim C2, counterexample: on three runs contributing 10, 10 and 100
to one group, the high-outlier run-identifier list of the statistics row
is empty, so the run "3" that contributed 100 is NOT listed, contrary to
the claim. -/
theorem claim_c2_counterexample :
    kpiGroupOutliers [("1", 10), ("2", 10), ("3", 100)] = ([], [], [])
    ∧ "3" ∉ (kpiGroupOutliers [("1", 10), ("2", 10), ("3", 100)]).2.1 := by
  exact ⟨rfl, by decide⟩

/-- Claim C2, amended: on values {10, 10, 100} the linearly interpolated
quartiles are Q1 = 10 and Q3 = 55, the 1.5×IQR upper fence is 122.5 which
exceeds 100, and the statistics row reports no outlier runs at all. -/
theorem claim_c2_amended_no_outliers :
    quantileLinear [10, 10, 100] (1/4) = 10
    ∧ quantileLinear [10, 10, 100] (3/4) = 55
    ∧ kpiGroupOutliers [("1", 10), ("2", 10), ("3", 100)] = ([], [], []) :=
  ⟨rfl, rfl, rfl⟩

/-- Claim C3: on the validated table `c3Rows` the dropped-below milestone
is recorded at row index 3 and the running maximum of the monitored
metric over rows 3.. is 99, yet the emitted `Max ... PSI value after
dropped below threshold` KPI row holds 1, because the code only updates
that maximum inside the per-annotation loop and row 4 (value 99) carries
no annotation. -/
theorem claim_c3_code_divergence :
    getKpiDf c3Rows none = .ok c3Kpis
    ∧ c3Kpis.get? 7 = some ⟨"Max \x27cpu:some\x27 PSI value after dropped below threshold",
        "psi_event", "psi_monitor", 1, "Percent"⟩
    ∧ specMaxAtOrAfter c3Rows 3 = 99
    ∧ (1 : ℚ) ≠ 99 :=
  ⟨rfl, rfl, rfl, by decide⟩

/-- Claim C6, counterexample: a two-line dump whose first uptime is 0 and
second uptime is 5 parses to relative times [0, 0]; the claim demands the
second row's relative time equal 5 - 0 = 5, which 0 is not.  (The Python
guard `if not monitor_start_uptime_millis:` treats the stored uptime 0 as
"not yet set".) -/
theorem claim_c6_counterexample :
    (parsePsiDump [⟨0, none⟩, ⟨5, none⟩]).map ParsedPsiRow.monitorStartRelativeMillis = [0, 0]
    ∧ (0 : Int) ≠ (5 : Int) - 0 :=
  ⟨rfl, by decide⟩

/-- Claim C7, counterexample: re-encoding the annotation list
["a,b", "c"] and re-parsing it through the splitting rule yields
["a", "b", "c"], not the original list, because the comma inside the
first annotation is also split on. -/
theorem claim_c7_counterexample :
    splitEventDescs (some (encodeEventDescs ["a,b", "c"])) = ["a", "b", "c"]
    ∧ (["a", "b", "c"] : List String) ≠ ["a,b", "c"] :=
  ⟨rfl, by decide⟩

/-- Claim C8, counterexample: when the first call carrying dedup key "K"
is rejected by the time window (epoch 700000 ms before monitor start) and
the second is retained, the FIRST event actually produced with that key
already carries the suffix ": Occurrence 2" instead of the unmodified
key. -/
theorem claim_c8_counterexample :
    keyTrace 0 "K" []
      [⟨-700000, "t", "d", "c", some "K", some 1200, false, true⟩,
       ⟨0, "t", "d", "c", some "K", some 1200, false, true⟩]
      = [some "K: Occurrence 2"]
    ∧ some "K: Occurrence 2" ≠ some "K" :=
  ⟨rfl, by decide⟩

theorem parsePsiDumpAux_some_succ (u : Nat) (rows : List RawPsiLine) :
    parsePsiDumpAux (some (u + 1)) rows
      = rows.map (fun l => ⟨(l.uptimeMillis : Int) - ((u + 1 : Nat) : Int),
          splitEventDescs l.eventDescSeg⟩) := by
  induction rows with
  | nil => rfl
  | cons l rest ih => simp [parsePsiDumpAux, ih]

/-- Claim C6, amended: provided the first line's uptime is nonzero, the
first row's monitor-relative time is 0 and every later row's relative
time is its uptime minus the first line's uptime (hence relative times
are non-decreasing whenever the source uptimes are).  The nonzero proviso
is forced by the `if not monitor_start_uptime_millis:` truthiness
counterexample. -/
theorem claim_c6_amended_relative_times (l0 : RawPsiLine) (rest : List RawPsiLine)
    (h : l0.uptimeMillis ≠ 0) :
    (parsePsiDump (l0 :: rest)).map ParsedPsiRow.monitorStartRelativeMillis
      = 0 :: rest.map (fun l => (l.uptimeMillis : Int) - (l0.uptimeMillis : Int)) := by
  obtain ⟨u, hu⟩ := Nat.exists_eq_succ_of_ne_zero h
  simp [parsePsiDump, parsePsiDumpAux, hu, parsePsiDumpAux_some_succ]

/-- Witness for the amended C6 theorem at a concrete three-line dump with
uptimes 7, 10, 12. -/
theorem claim_c6_amended_witness :
    (⟨7, none⟩ : RawPsiLine).uptimeMillis ≠ 0
    ∧ (parsePsiDump [⟨7, none⟩, ⟨10, none⟩, ⟨12, none⟩]).map
        ParsedPsiRow.monitorStartRelativeMillis
      = 0 :: [(⟨10, none⟩ : RawPsiLine), ⟨12, none⟩].map
          (fun l => (l.uptimeMillis : Int) - (((⟨7, none⟩ : RawPsiLine)).uptimeMillis : Int)) :=
  ⟨by decide, claim_c6_amended_relative_times ⟨7, none⟩ [⟨10, none⟩, ⟨12, none⟩] (by decide)⟩

/-- Claim C9: whenever validation passes, `populate_kpi_df` emits the
eleven fixed PSI rows; the Baseline-calculation-duration row (position 3)
has Type `psi_monitor` and Tag `psi_event`, while every other PSI row has
Type `psi_event` and Tag `psi_monitor`. -/
theorem claim_c9_type_tag_swap (st : PsiKpiState) (h : checkValid st = .ok ()) :
    populateKpiDf st = .ok (psiKpiRows st)
    ∧ (psiKpiRows st).map (fun r => (r.type, r.tag))
      = [(psiEventType, psiMonitorTag), (psiEventType, psiMonitorTag),
         (psiEventType, psiMonitorTag), (psiMonitorTag, psiEventType),
         (psiEventType, psiMonitorTag), (psiEventType, psiMonitorTag),
         (psiEventType, psiMonitorTag), (psiEventType, psiMonitorTag),
         (psiEventType, psiMonitorTag), (psiEventType, psiMonitorTag),
         (psiEventType, psiMonitorTag)] := by
  constructor
  · simp [populateKpiDf, h]
  · rfl

/-- Witness for the C9 theorem at the concrete validated state of the
canonical scenario. -/
theorem claim_c9_witness :
    populateKpiDf c1State = .ok (psiKpiRows c1State)
    ∧ (psiKpiRows c1State).map (fun r => (r.type, r.tag))
      = [(psiEventType, psiMonitorTag), (psiEventType, psiMonitorTag),
         (psiEventType, psiMonitorTag), (psiMonitorTag, psiEventType),
         (psiEventType, psiMonitorTag), (psiEventType, psiMonitorTag),
         (psiEventType, psiMonitorTag), (psiEventType, psiMonitorTag),
         (psiEventType, psiMonitorTag), (psiEventType, psiMonitorTag),
         (psiEventType, psiMonitorTag)] :=
  claim_c9_type_tag_swap c1State rfl

theorem dictGet_dictSet_self (d : List (String × Nat)) (k : String) (n : Nat) :
    dictGet (dictSet d k n) k = some n := by
  induction d with
  | nil => simp [dictGet, dictSet]
  | cons p rest ih =>
    by_cases h : p.1 = k
    · simp [dictGet, dictSet, h]
    · simp [dictGet, dictSet, h, ih]

theorem dictGet_dictSet_ne (d : List (String × Nat)) (k k2 : String) (n : Nat)
    (h : k ≠ k2) : dictGet (dictSet d k n) k2 = dictGet d k2 := by
  induction d with
  | nil => simp [dictGet, dictSet, h]
  | cons p rest ih =>
    by_cases hp : p.1 = k
    · simp [dictGet, dictSet, hp, h]
    · simp only [dictSet, if_neg hp, dictGet]
      by_cases hp2 : p.1 = k2 <;> simp [hp2, ih]

/-- Claim C10: the per-key occurrence counter of _get_list is updated
before the time-window rejection check, so a call whose event is
discarded (relative time below -600000 ms) still advances its dedup
key's counter, and a later retained call with the same key is suffixed
': Occurrence 2' even though it produces the first event of that key
actually present in the output. -/
theorem claim_c10_counter_advances_on_discard
    (mse : Int) (counts : List (String × Nat)) (k : String) (a1 a2 : GetListArgs)
    (hk : k ≠ "") (hd : dictGet counts k = none)
    (h1k : a1.eventKey = some k)
    (h1t : a1.epochMillis - mse < minDurationMillisDeltaBeforeMonitorStart)
    (h2k : a2.eventKey = some k)
    (h2t : ¬ a2.epochMillis - mse < minDurationMillisDeltaBeforeMonitorStart) :
    (getList mse counts a1).2 = none
    ∧ dictGet (getList mse counts a1).1 k = some 1
    ∧ ∃ row, (getList mse (getList mse counts a1).1 a2).2 = some row
        ∧ row.eventKey = some (k ++ ": Occurrence 2") := by
  have hstep1 : getList mse counts a1 = (dictSet counts k 1, none) := by
    simp [getList, h1k, hk, hd, h1t]
  have hget2 : dictGet (dictSet counts k 1) k = some 1 := dictGet_dictSet_self counts k 1
  have hocc : (": Occurrence " ++ toString (1 + 1) : String) = ": Occurrence 2" := rfl
  have hocc2 : (": Occurrence " ++ toString (2 : Nat) : String) = ": Occurrence 2" := rfl
  refine ⟨by rw [hstep1], by rw [hstep1]; exact hget2, ?_⟩
  rw [hstep1]
  refine ⟨⟨a2.epochMillis, a2.epochMillis - mse, a2.eventTag, a2.eventDescription,
      some (k ++ ": Occurrence 2"), a2.durationMillis,
      a2.isHighLatencyEvent, a2.color, a2.shouldPlot⟩, ?_, rfl⟩
  simp [getList, h2k, hk, hget2, h2t, hocc, hocc2]
  rw [String.append_assoc]
  exact congrArg (fun s => k ++ s) hocc2

/-- Witness for the C10 theorem: monitor start 0, an empty counter map,
a first call at epoch -700000 (discarded) and a second at epoch 0
(retained), both with key "K". -/
theorem claim_c10_witness :
    (getList 0 [] ⟨-700000, "t", "d", "c", some "K", some 1200, false, true⟩).2 = none
    ∧ dictGet (getList 0 [] ⟨-700000, "t", "d", "c", some "K", some 1200, false, true⟩).1 "K"
        = some 1
    ∧ ∃ row, (getList 0 (getList 0 [] ⟨-700000, "t", "d", "c", some "K", some 1200, false, true⟩).1
          ⟨0, "t", "d", "c", some "K", some 1200, false, true⟩).2 = some row
        ∧ row.eventKey = some ("K" ++ ": Occurrence 2") :=
  claim_c10_counter_advances_on_discard 0 [] "K" _ _ (by decide) rfl rfl (by decide) rfl
    (by decide)

theorem checkValid_mismatch (st : PsiKpiState)
    (hm : st.droppedBelowThresholdType ≠ st.exceededThresholdType
        ∨ st.droppedBelowThresholdValue ≠ st.exceededThresholdValue) :
    ∃ e, checkValid st = .error e := by
  unfold checkValid
  cases hc : st.cujCompletedMillis with
  | none => exact ⟨_, rfl⟩
  | some cuj =>
  cases he : st.exceededThresholdMillis with
  | none => exact ⟨_, rfl⟩
  | some exc =>
  cases hdm : st.droppedBelowThresholdMillis with
  | none => exact ⟨_, rfl⟩
  | some drp =>
  cases hr : st.reachedBaselineMillis with
  | none => exact ⟨_, rfl⟩
  | some rb =>
  by_cases ht : st.droppedBelowThresholdType ≠ st.exceededThresholdType
  · exact ⟨"PSI threshold type mismatch", by simp [ht]⟩
  · have hv : st.droppedBelowThresholdValue ≠ st.exceededThresholdValue := by
      rcases hm with hm | hm
      · exact absurd hm ht
      · exact hm
    exact ⟨"PSI threshold value mismatch", by simp [ht, hv]⟩

/-- Claim C4: if processing records both threshold milestones but their
captured pressure-type labels or percentage values differ, KPI extraction
fails with a validation error (no KPI rows are emitted), for any events
table. -/
theorem claim_c4_mismatch_fails (psiDf : List PsiRow)
    (eventsDf : Option (List EventsCsvRow)) (st : PsiKpiState)
    (hp : processPsiDf psiDf = .ok st)
    (he : st.exceededThresholdMillis ≠ none)
    (hd : st.droppedBelowThresholdMillis ≠ none)
    (hm : st.droppedBelowThresholdType ≠ st.exceededThresholdType
        ∨ st.droppedBelowThresholdValue ≠ st.exceededThresholdValue) :
    ∃ e, getKpiDf psiDf eventsDf = .error e := by
  obtain ⟨e, hcv⟩ := checkValid_mismatch st hm
  exact ⟨e, by simp [getKpiDf, hp, populateKpiDf, hcv]⟩

/-- Witness for the C4 theorem: a one-row table recording an 80% exceeded
threshold and a 70% dropped-below threshold. -/
theorem claim_c4_witness : ∃ e, getKpiDf mismatchRows none = .error e :=
  claim_c4_mismatch_fails mismatchRows none mismatchState rfl (by decide) (by decide)
    (Or.inr (by decide))

theorem replaceDelim_cons_ne (c : Char) (cs : List Char) (h : c ≠ '"') :
    replaceDelim (c :: cs) = c :: replaceDelim cs := by
  simp [replaceDelim, h]

theorem containsDelim_append_delim (s t : List Char) :
    containsDelim (s ++ '"' :: ' ' :: '"' :: t) = true := by
  induction s with
  | nil => rfl
  | cons c s2 ih => simp [containsDelim, ih]

theorem containsDelim_eq_false (s : List Char) (h : '"' ∉ s) :
    containsDelim s = false := by
  induction s with
  | nil => rfl
  | cons c s2 ih =>
    have hc : c ≠ '"' := fun he => h (he ▸ List.mem_cons_self c s2)
    have hs : '"' ∉ s2 := fun hm => h (List.mem_cons_of_mem c hm)
    simp [containsDelim, hc, ih hs]

theorem replaceDelim_id (s : List Char) (h : '"' ∉ s) : replaceDelim s = s := by
  induction s with
  | nil => rfl
  | cons c s2 ih =>
    have hc : c ≠ '"' := fun he => h (he ▸ List.mem_cons_self c s2)
    have hs : '"' ∉ s2 := fun hm => h (List.mem_cons_of_mem c hm)
    rw [replaceDelim_cons_ne c s2 hc, ih hs]

theorem replaceDelim_append_delim (s t : List Char) (h : '"' ∉ s) :
    replaceDelim (s ++ '"' :: ' ' :: '"' :: t) = s ++ ',' :: replaceDelim t := by
  induction s with
  | nil => rfl
  | cons c s2 ih =>
    have hc : c ≠ '"' := fun he => h (he ▸ List.mem_cons_self c s2)
    have hs : '"' ∉ s2 := fun hm => h (List.mem_cons_of_mem c hm)
    rw [List.cons_append, replaceDelim_cons_ne c _ hc, ih hs, List.cons_append]

theorem splitComma_no_comma (s : List Char) (h : ',' ∉ s) : splitComma s = [s] := by
  induction s with
  | nil => rfl
  | cons c s2 ih =>
    have hc : c ≠ ',' := fun he => h (he ▸ List.mem_cons_self c s2)
    have hs : ',' ∉ s2 := fun hm => h (List.mem_cons_of_mem c hm)
    simp [splitComma, hc, ih hs]

theorem splitComma_append_comma (s u : List Char) (h : ',' ∉ s) :
    splitComma (s ++ ',' :: u) = s :: splitComma u := by
  induction s with
  | nil => simp [splitComma]
  | cons c s2 ih =>
    have hc : c ≠ ',' := fun he => h (he ▸ List.mem_cons_self c s2)
    have hs : ',' ∉ s2 := fun hm => h (List.mem_cons_of_mem c hm)
    simp [splitComma, hc, ih hs]

theorem splitComma_replaceDelim_intercalate (l : List (List Char)) (hne : l ≠ [])
    (h : ∀ x ∈ l, ',' ∉ x ∧ '"' ∉ x) :
    splitComma (replaceDelim (intercalateDelim l)) = l := by
  induction l with
  | nil => exact absurd rfl hne
  | cons s tail ih =>
    cases tail with
    | nil =>
      have hs := h s (List.mem_cons_self s [])
      rw [intercalateDelim, replaceDelim_id s hs.2, splitComma_no_comma s hs.1]
    | cons r rest =>
      have hs := h s (List.mem_cons_self s (r :: rest))
      have htail : ∀ x ∈ r :: rest, ',' ∉ x ∧ '"' ∉ x :=
        fun x hx => h x (List.mem_cons_of_mem s hx)
      rw [intercalateDelim, replaceDelim_append_delim _ _ hs.2,
          splitComma_append_comma _ _ hs.1, ih (by simp) htail]

theorem stringMk_data (s : String) : String.mk s.data = s := rfl

theorem map_mk_data (l : List String) : l.map (String.mk ∘ String.data) = l := by
  induction l with
  | nil => rfl
  | cons s t ih => simp [ih, Function.comp]

/-- Claim C7, amended: encoding an annotation list into the trailing
quoted multi-string segment and re-parsing it through the splitting rule
yields the original list, provided no annotation contains a comma or a
double-quote character (forced by the comma counterexample) and the list
is not the singleton empty string (which encodes to an empty segment). -/
theorem claim_c7_amended_roundtrip (l : List String)
    (hno : ∀ s ∈ l, ¬ ',' ∈ s.data ∧ ¬ '"' ∈ s.data)
    (hne : l ≠ [""]) :
    splitEventDescs (some (encodeEventDescs l)) = l := by
  cases l with
  | nil => rfl
  | cons s tail =>
    cases tail with
    | nil =>
      have hs : s ≠ "" := fun h => hne (by rw [h])
      have hq := (hno s (List.mem_cons_self s [])).2
      have henc : encodeEventDescs [s] = s := stringMk_data s
      rw [henc]
      rw [splitEventDescs, if_neg hs, parseAnnotSegL, containsDelim_eq_false s.data hq]
      simp only [if_neg Bool.false_ne_true, List.map_cons, List.map_nil, stringMk_data]
    | cons r rest =>
      have hdata : (encodeEventDescs (s :: r :: rest)).data
          = s.data ++ '"' :: ' ' :: '"' :: intercalateDelim (r.data :: rest.map String.data) := by
        simp [encodeEventDescs, intercalateDelim]
      have hcontains : containsDelim (encodeEventDescs (s :: r :: rest)).data = true := by
        rw [hdata]; exact containsDelim_append_delim _ _
      have hene : encodeEventDescs (s :: r :: rest) ≠ "" := by
        intro h
        have : (encodeEventDescs (s :: r :: rest)).data = [] := by rw [h]
        rw [hdata] at this
        simp at this
      rw [splitEventDescs, if_neg hene, parseAnnotSegL, hcontains, if_pos rfl]
      have hcore : splitComma (replaceDelim (encodeEventDescs (s :: r :: rest)).data)
          = (s :: r :: rest).map String.data := by
        have harg : (encodeEventDescs (s :: r :: rest)).data
            = intercalateDelim ((s :: r :: rest).map String.data) := rfl
        rw [harg]
        refine splitComma_replaceDelim_intercalate _ (by simp) ?_
        intro x hx
        obtain ⟨y, hy, rfl⟩ := List.mem_map.mp hx
        exact ⟨(hno y hy).1, (hno y hy).2⟩
      rw [hcore]
      simp [stringMk_data, map_mk_data]

theorem listStartsWith_eq_append (p : List Char) : ∀ (s : List Char),
    listStartsWith p s = true → ∃ t, s = p ++ t := by
  induction p with
  | nil => exact fun s _ => ⟨s, rfl⟩
  | cons c ps ih =>
    intro s h
    cases s with
    | nil => simp [listStartsWith] at h
    | cons c2 s2 =>
      rw [listStartsWith] at h
      by_cases hc : c = c2
      · subst hc
        rw [if_pos rfl] at h
        obtain ⟨t, ht⟩ := ih s2 h
        exact ⟨t, by rw [ht]; rfl⟩
      · rw [if_neg hc] at h
        cases h

theorem exceeded_not_on_baseline (t : List Char) :
    listStartsWith exceededPre (baselinePre ++ t) = false := rfl

theorem dropped_not_on_baseline (t : List Char) :
    listStartsWith droppedPre (baselinePre ++ t) = false := rfl

theorem matchBaseline_startsWith {s : String} {n : Nat} (h : matchBaseline s = some n) :
    listStartsWith baselinePre s.data = true := by
  by_contra hb
  rw [matchBaseline, if_neg hb] at h
  cases h

theorem matchExceeded_of_matchBaseline {s : String} {n : Nat}
    (h : matchBaseline s = some n) : matchExceeded s = none := by
  obtain ⟨t, ht⟩ := listStartsWith_eq_append baselinePre s.data (matchBaseline_startsWith h)
  rw [matchExceeded, matchThresholdL, ht, exceeded_not_on_baseline]
  simp

theorem matchDropped_of_matchBaseline {s : String} {n : Nat}
    (h : matchBaseline s = some n) : matchDropped s = none := by
  obtain ⟨t, ht⟩ := listStartsWith_eq_append baselinePre s.data (matchBaseline_startsWith h)
  rw [matchDropped, matchThresholdL, ht, dropped_not_on_baseline]
  simp

theorem ne_cuj_of_matchBaseline {s : String} {n : Nat}
    (h : matchBaseline s = some n) : s ≠ cujCompletedEvent := by
  intro he
  subst he
  rw [show matchBaseline cujCompletedEvent = none from rfl] at h
  cases h

theorem dropMaxUpdate_baseline (st : PsiKpiState) (psi : ℚ) :
    (dropMaxUpdate st psi).reachedBaselineMillis = st.reachedBaselineMillis := by
  unfold dropMaxUpdate
  split
  · split <;> rfl
  · rfl

theorem bandUpdate_baseline (st : PsiKpiState) (psi prevPsi cur : ℚ) :
    (bandUpdate st psi prevPsi cur).reachedBaselineMillis = st.reachedBaselineMillis := by
  unfold bandUpdate
  split_ifs <;> rfl

theorem procAnnotBaseline_no_match (psiDf : List PsiRow) (i : Nat) (millis : ℚ)
    (st : PsiKpiState) (d : String) (hb : matchBaseline d = none) :
    procAnnotBaseline psiDf i millis st d = .ok st := by
  unfold procAnnotBaseline
  split
  · rw [hb]
  · rfl

theorem procAnnotDropped_no_baseline (psiDf : List PsiRow) (i : Nat) (millis : ℚ)
    (st : PsiKpiState) (d : String) (hb : matchBaseline d = none) :
    ∃ st2, procAnnotDropped psiDf i millis st d = .ok st2
      ∧ st2.reachedBaselineMillis = st.reachedBaselineMillis := by
  unfold procAnnotDropped
  split
  · split
    · exact ⟨_, rfl, rfl⟩
    · exact ⟨st, procAnnotBaseline_no_match psiDf i millis st d hb, rfl⟩
  · exact ⟨st, procAnnotBaseline_no_match psiDf i millis st d hb, rfl⟩

theorem procAnnotExceeded_no_baseline (psiDf : List PsiRow) (i : Nat) (millis : ℚ)
    (st : PsiKpiState) (d : String) (hb : matchBaseline d = none) :
    ∃ st2, procAnnotExceeded psiDf i millis st d = .ok st2
      ∧ st2.reachedBaselineMillis = st.reachedBaselineMillis := by
  unfold procAnnotExceeded
  split
  · split
    · exact ⟨_, rfl, rfl⟩
    · exact procAnnotDropped_no_baseline psiDf i millis st d hb
  · exact procAnnotDropped_no_baseline psiDf i millis st d hb

theorem procAnnot_no_baseline (psiDf : List PsiRow) (i : Nat) (millis psi : ℚ)
    (st : PsiKpiState) (d : String) (hb : matchBaseline d = none) :
    ∃ st2, procAnnot psiDf i millis psi st d = .ok st2
      ∧ st2.reachedBaselineMillis = st.reachedBaselineMillis := by
  unfold procAnnot
  split
  · exact ⟨_, rfl, dropMaxUpdate_baseline st psi⟩
  · obtain ⟨st2, hstep, hpres⟩ :=
      procAnnotExceeded_no_baseline psiDf i millis (dropMaxUpdate st psi) d hb
    exact ⟨st2, hstep, hpres.trans (dropMaxUpdate_baseline st psi)⟩

theorem procAnnotBaseline_err (psiDf : List PsiRow) (i : Nat) (millis : ℚ)
    (st : PsiKpiState) (d : String) (n : Nat)
    (hr : st.reachedBaselineMillis = none) (hb : matchBaseline d = some n) (hn : n > i) :
    ∃ e, procAnnotBaseline psiDf i millis st d = .error e := by
  unfold procAnnotBaseline
  rw [if_pos hr, hb]
  refine ⟨"Previous N PSI entries used in baseline calculation is greater than index", ?_⟩
  simp [hn]

theorem procAnnotDropped_err (psiDf : List PsiRow) (i : Nat) (millis : ℚ)
    (st : PsiKpiState) (d : String) (n : Nat)
    (hr : st.reachedBaselineMillis = none) (hb : matchBaseline d = some n) (hn : n > i) :
    ∃ e, procAnnotDropped psiDf i millis st d = .error e := by
  unfold procAnnotDropped
  split
  · rw [matchDropped_of_matchBaseline hb]
    exact procAnnotBaseline_err psiDf i millis st d n hr hb hn
  · exact procAnnotBaseline_err psiDf i millis st d n hr hb hn

theorem procAnnotExceeded_err (psiDf : List PsiRow) (i : Nat) (millis : ℚ)
    (st : PsiKpiState) (d : String) (n : Nat)
    (hr : st.reachedBaselineMillis = none) (hb : matchBaseline d = some n) (hn : n > i) :
    ∃ e, procAnnotExceeded psiDf i millis st d = .error e := by
  unfold procAnnotExceeded
  split
  · rw [matchExceeded_of_matchBaseline hb]
    exact procAnnotDropped_err psiDf i millis st d n hr hb hn
  · exact procAnnotDropped_err psiDf i millis st d n hr hb hn

theorem procAnnot_err (psiDf : List PsiRow) (i : Nat) (millis psi : ℚ)
    (st : PsiKpiState) (d : String) (n : Nat)
    (hr : st.reachedBaselineMillis = none) (hb : matchBaseline d = some n) (hn : n > i) :
    ∃ e, procAnnot psiDf i millis psi st d = .error e := by
  unfold procAnnot
  have hcuj : ¬ ((dropMaxUpdate st psi).cujCompletedMillis = none ∧ d = cujCompletedEvent) :=
    fun hc => ne_cuj_of_matchBaseline hb hc.2
  rw [if_neg hcuj]
  exact procAnnotExceeded_err psiDf i millis (dropMaxUpdate st psi) d n
    (by rw [dropMaxUpdate_baseline]; exact hr) hb hn

theorem procAnnots_no_baseline (psiDf : List PsiRow) (i : Nat) (millis psi : ℚ) :
    ∀ (ds : List String) (st : PsiKpiState), firstBaselineAnnot ds = none →
    ∃ st2, procAnnots psiDf i millis psi st ds = .ok st2
      ∧ st2.reachedBaselineMillis = st.reachedBaselineMillis := by
  intro ds
  induction ds with
  | nil => exact fun st _ => ⟨st, rfl, rfl⟩
  | cons d ds2 ih =>
    intro st hb
    have hb1 : matchBaseline d = none := by
      cases hmb : matchBaseline d with
      | none => rfl
      | some n => rw [firstBaselineAnnot, hmb] at hb; cases hb
    have hb2 : firstBaselineAnnot ds2 = none := by
      rw [firstBaselineAnnot, hb1] at hb; exact hb
    obtain ⟨stm, hstep, hpres⟩ := procAnnot_no_baseline psiDf i millis psi st d hb1
    obtain ⟨st2, hrest, hpres2⟩ := ih stm hb2
    exact ⟨st2, by rw [procAnnots, hstep]; exact hrest, hpres2.trans hpres⟩

theorem procAnnots_err (psiDf : List PsiRow) (i : Nat) (millis psi : ℚ) :
    ∀ (ds : List String) (st : PsiKpiState) (n : Nat),
    st.reachedBaselineMillis = none → firstBaselineAnnot ds = some n → n > i →
    ∃ e, procAnnots psiDf i millis psi st ds = .error e := by
  intro ds
  induction ds with
  | nil => intro st n _ hf _; rw [firstBaselineAnnot] at hf; cases hf
  | cons d ds2 ih =>
    intro st n hr hf hn
    cases hmb : matchBaseline d with
    | some n2 =>
      have hn2 : n2 = n := by
        rw [firstBaselineAnnot, hmb] at hf; exact Option.some.inj hf
      subst hn2
      obtain ⟨e, he⟩ := procAnnot_err psiDf i millis psi st d n2 hr hmb hn
      exact ⟨e, by rw [procAnnots, he]⟩
    | none =>
      have hf2 : firstBaselineAnnot ds2 = some n := by
        rw [firstBaselineAnnot, hmb] at hf; exact hf
      obtain ⟨stm, hstep, hpres⟩ := procAnnot_no_baseline psiDf i millis psi st d hmb
      obtain ⟨e, he⟩ := ih stm n (hpres.trans hr) hf2 hn
      exact ⟨e, by rw [procAnnots, hstep]; exact he⟩

theorem processRows_err (psiDf : List PsiRow) :
    ∀ (rows : List PsiRow) (i : Nat) (prevPsi prevMillis : ℚ) (st : PsiKpiState) (j n : Nat),
    st.reachedBaselineMillis = none →
    firstBaselineMatchAux i rows = some (j, n) → n > j →
    ∃ e, processRows psiDf i prevPsi prevMillis st rows = .error e := by
  intro rows
  induction rows with
  | nil => intro i _ _ _ j n _ hf _; rw [firstBaselineMatchAux] at hf; cases hf
  | cons row rest ih =>
    intro i prevPsi prevMillis st j n hr hf hn
    cases hfa : firstBaselineAnnot row.eventDescriptions with
    | some n2 =>
      have hij : (i, n2) = (j, n) := by
        rw [firstBaselineMatchAux, hfa] at hf; exact Option.some.inj hf
      have hi : i = j := congrArg Prod.fst hij
      have hnn : n2 = n := congrArg Prod.snd hij
      subst hi; subst hnn
      obtain ⟨e, he⟩ := procAnnots_err psiDf i row.monitorStartRelativeMillis row.psiValue
        row.eventDescriptions
        (bandUpdate st row.psiValue prevPsi (row.monitorStartRelativeMillis - prevMillis)) n2
        (by rw [bandUpdate_baseline]; exact hr) hfa hn
      exact ⟨e, by rw [processRows, he]⟩
    | none =>
      have hf2 : firstBaselineMatchAux (i + 1) rest = some (j, n) := by
        rw [firstBaselineMatchAux, hfa] at hf; exact hf
      obtain ⟨stm, hstep, hpres⟩ := procAnnots_no_baseline psiDf i
        row.monitorStartRelativeMillis row.psiValue row.eventDescriptions
        (bandUpdate st row.psiValue prevPsi (row.monitorStartRelativeMillis - prevMillis))
        hfa
      obtain ⟨e, he⟩ := ih (i + 1) row.psiValue row.monitorStartRelativeMillis stm j n
        (by rw [hpres, bandUpdate_baseline]; exact hr) hf2 hn
      exact ⟨e, by rw [processRows, hstep]; exact he⟩

/-- Claim C5: whenever the first-matched `PSI reached baseline across
latest N entries` annotation carries a count N strictly greater than the
index of the row holding it, KPI extraction fails with an error and no
KPI table is produced, for any events table. -/
theorem claim_c5_baseline_window_too_large (psiDf : List PsiRow)
    (eventsDf : Option (List EventsCsvRow)) (j n : Nat)
    (hf : firstBaselineMatch psiDf = some (j, n)) (hn : n > j) :
    ∃ e, getKpiDf psiDf eventsDf = .error e := by
  have hproc : ∃ e, processPsiDf psiDf = .error e := by
    cases psiDf with
    | nil => rw [firstBaselineMatch, firstBaselineMatchAux] at hf; cases hf
    | cons row rest =>
      obtain ⟨e, he⟩ := processRows_err (row :: rest) (row :: rest) 0 0 0
        { initPsiKpiState with maxPsiValue := maxPsiOf (row :: rest) } j n rfl hf hn
      exact ⟨e, by rw [processPsiDf, if_neg (by simp)]; exact he⟩
  obtain ⟨e, he⟩ := hproc
  exact ⟨e, by rw [getKpiDf, he]⟩

/-- Witness for the C5 theorem: a one-row table whose baseline annotation
references a 2-entry window at row index 0. -/
theorem claim_c5_witness :
    firstBaselineMatch badBaselineRows = some (0, 2) ∧ 2 > 0
    ∧ ∃ e, getKpiDf badBaselineRows none = .error e :=
  ⟨rfl, by decide,
   claim_c5_baseline_window_too_large badBaselineRows none 0 2 rfl (by decide)⟩

theorem keyCallCount_cons_pos (a : GetListArgs) (rest : List GetListArgs) (k : String)
    (h : a.eventKey = some k) : keyCallCount (a :: rest) k = keyCallCount rest k + 1 := by
  simp [keyCallCount, h]

theorem keyCallCount_cons_neg (a : GetListArgs) (rest : List GetListArgs) (k : String)
    (h : a.eventKey ≠ some k) : keyCallCount (a :: rest) k = keyCallCount rest k := by
  simp [keyCallCount, h]

theorem getList_fst_ne (mse : Int) (counts : List (String × Nat)) (a : GetListArgs)
    (k : String) (h : a.eventKey ≠ some k) :
    dictGet (getList mse counts a).1 k = dictGet counts k := by
  cases hek : a.eventKey with
  | none =>
    simp only [getList, hek]
    split <;> rfl
  | some k2 =>
    have hne : k2 ≠ k := fun he => h (by rw [hek, he])
    by_cases hemp : k2 = ""
    · simp only [getList, hek, if_pos hemp]
      split <;> rfl
    · cases hd2 : dictGet counts k2 with
      | some n =>
        simp only [getList, hek, if_neg hemp, hd2]
        split <;> exact dictGet_dictSet_ne counts k2 k (n + 1) hne
      | none =>
        simp only [getList, hek, if_neg hemp, hd2]
        split <;> exact dictGet_dictSet_ne counts k2 k 1 hne

theorem keyTrace_occurrences (mse : Int) (k : String) (hk : k ≠ "") :
    ∀ (args : List GetListArgs) (counts : List (String × Nat)) (c : Nat),
    (dictGet counts k = none ∧ c = 0 ∨ dictGet counts k = some c ∧ 0 < c) →
    (∀ a ∈ args, a.eventKey = some k →
      ¬ a.epochMillis - mse < minDurationMillisDeltaBeforeMonitorStart) →
    keyTrace mse k counts args
      = (List.range (keyCallCount args k)).map (fun idx => occKey k (c + idx + 1)) := by
  intro args
  induction args with
  | nil => intro counts c _ _; rfl
  | cons a rest ih =>
    intro counts c hinv hret
    have hretRest : ∀ x ∈ rest, x.eventKey = some k →
        ¬ x.epochMillis - mse < minDurationMillisDeltaBeforeMonitorStart :=
      fun x hx => hret x (List.mem_cons_of_mem a hx)
    by_cases hek : a.eventKey = some k
    · have hna : ¬ a.epochMillis - mse < minDurationMillisDeltaBeforeMonitorStart :=
        hret a (List.mem_cons_self a rest) hek
      rcases hinv with ⟨hdg, hc0⟩ | ⟨hdg, hcpos⟩
      · subst hc0
        have hstep : getList mse counts a = (dictSet counts k 1,
            some ⟨a.epochMillis, a.epochMillis - mse, a.eventTag, a.eventDescription, some k,
                  a.durationMillis, a.isHighLatencyEvent, a.color, a.shouldPlot⟩) := by
          simp [getList, hek, hk, hdg, hna]
        have htail := ih (dictSet counts k 1) 1
          (Or.inr ⟨dictGet_dictSet_self counts k 1, Nat.one_pos⟩) hretRest
        rw [keyTrace, if_pos hek, hstep]
        simp only []
        rw [htail, keyCallCount_cons_pos a rest k hek, List.range_succ_eq_map,
            List.map_cons, List.map_map]
        simp [occKey]
        intro m _
        have he2 : (1 : Nat) + m + 1 = m + 1 + 1 := by omega
        rw [he2]
      · have hstep : getList mse counts a = (dictSet counts k (c + 1),
            some ⟨a.epochMillis, a.epochMillis - mse, a.eventTag, a.eventDescription,
                  some (k ++ ": Occurrence " ++ toString (c + 1)),
                  a.durationMillis, a.isHighLatencyEvent, a.color, a.shouldPlot⟩) := by
          simp [getList, hek, hk, hdg, hna]
        have htail := ih (dictSet counts k (c + 1)) (c + 1)
          (Or.inr ⟨dictGet_dictSet_self counts k (c + 1), Nat.succ_pos c⟩) hretRest
        rw [keyTrace, if_pos hek, hstep]
        simp only []
        rw [htail, keyCallCount_cons_pos a rest k hek, List.range_succ_eq_map,
            List.map_cons, List.map_map]
        have h1 : c + 1 ≠ 1 := by omega
        simp [occKey, h1]
        intro m _
        have he2 : c + 1 + m + 1 = c + (m + 1) + 1 := by omega
        rw [he2]
    · have hpres : dictGet (getList mse counts a).1 k = dictGet counts k :=
        getList_fst_ne mse counts a k hek
      have hinv2 : dictGet (getList mse counts a).1 k = none ∧ c = 0
          ∨ dictGet (getList mse counts a).1 k = some c ∧ 0 < c := by
        rcases hinv with ⟨hdg, hc0⟩ | ⟨hdg, hcpos⟩
        · exact Or.inl ⟨hpres.trans hdg, hc0⟩
        · exact Or.inr ⟨hpres.trans hdg, hcpos⟩
      rw [keyTrace, if_neg hek, ih (getList mse counts a).1 c hinv2 hretRest,
          keyCallCount_cons_neg a rest k hek]

/-- Claim C8, amended: within one parse invocation (counter map initially
empty), and provided no call carrying the dedup key is rejected by the
time window (the proviso forced by the discarded-call counterexample),
the produced events for that key are, in order: the first with the key
unmodified, and the Nth (N ≥ 2) with ': Occurrence N' appended — as the
`occKey` schedule states; in particular a 1200 ms Displayed line
appearing twice yields a second event whose key ends in 'Occurrence 2'. -/
theorem claim_c8_amended_occurrence_suffix (mse : Int) (k : String)
    (args : List GetListArgs) (hk : k ≠ "")
    (hret : ∀ a ∈ args, a.eventKey = some k →
      ¬ a.epochMillis - mse < minDurationMillisDeltaBeforeMonitorStart) :
    keyTrace mse k [] args
      = (List.range (keyCallCount args k)).map (fun idx => occKey k (idx + 1)) := by
  have h := keyTrace_occurrences mse k hk args [] 0 (Or.inl ⟨rfl, rfl⟩) hret
  simpa using h

/-- Witness for the amended C8 theorem: the two retained 1200 ms
Displayed calls of `c8Args`; the produced keys are the unmodified key
followed by the key suffixed with ': Occurrence 2'. -/
theorem claim_c8_amended_witness :
    keyTrace 0 "Displayed foo.bar for user 0" [] c8Args
      = (List.range (keyCallCount c8Args "Displayed foo.bar for user 0")).map
          (fun idx => occKey "Displayed foo.bar for user 0" (idx + 1))
    ∧ keyTrace 0 "Displayed foo.bar for user 0" [] c8Args
      = [some "Displayed foo.bar for user 0",
         some "Displayed foo.bar for user 0: Occurrence 2"] :=
  ⟨claim_c8_amended_occurrence_suffix 0 "Displayed foo.bar for user 0" c8Args (by decide)
    (by
      intro a ha hkey
      fin_cases ha <;> decide),
   rfl⟩

/-- Witness for the amended C7 theorem at the annotation list
["ab", "cd"], whose strings contain no comma and no double quote. -/
theorem claim_c7_amended_witness :
    splitEventDescs (some (encodeEventDescs ["ab", "cd"])) = ["ab", "cd"] :=
  claim_c7_amended_roundtrip ["ab", "cd"]
    (by
      intro x hx
      fin_cases hx <;> exact ⟨by decide, by decide⟩)
    (by decide)
